import Mathlib

/-!
Verification development for the meal-analysis pipeline of `app.py`
(NutriScan Pro, a Streamlit application).

The program is shallowly embedded:
* Python strings are `List Char`; `str.replace` / `str.strip` are modelled
  by `replaceAll` / `pyStrip` with Python's semantics (left-to-right,
  non-overlapping replacement; stripping ASCII whitespace at both ends).
* `json.loads` is modelled by `jsonLoads`, a recursive-descent parser for
  the JSON subset the application exchanges (objects, arrays, strings with
  the basic escapes, integer numerals, `true`/`false`/`null`; numeric
  values are carried as `Int` — every numeric value the claims touch is
  integral, and float arithmetic is outside the embedding).  As in Python,
  duplicate object keys keep the last value, and the whole input must be a
  single value.
* The Streamlit script body that runs for one uploaded image is `appFlow`:
  it takes the AI-collaborator outcome (`none` = the API call raised),
  one provider-call outcome per food item, the `datetime.now().isoformat()`
  string and the uploaded bytes, and returns the observable effects
  (error messages shown, row inserted into the `meals` table, nutrition
  lookups performed, metric values rendered, uncaught exceptions).
-/

/-- The character list of a Lean string literal (model of a Python `str`). -/
def chars (s : String) : List Char := s.data

/-- Python `str.strip()` whitespace test (ASCII subset). -/
def isPySpace (c : Char) : Bool :=
  c = ' ' || c = '\t' || c = '\n' || c = '\r' || c = '\x0b' || c = '\x0c'

/-- Python `str.strip()`: drop whitespace from both ends. -/
def pyStrip (s : List Char) : List Char :=
  ((s.dropWhile isPySpace).reverse.dropWhile isPySpace).reverse

/-- Fuelled worker for `replaceAll`; the fuel is an upper bound on the
length of the text still to be scanned, so the function is structural and
reduces in the kernel. -/
def replaceAllF : Nat → List Char → List Char → List Char → List Char
  | 0, _, _, s => s
  | fuel+1, pat, repl, s =>
    match s with
    | [] => []
    | c :: rest =>
      if !pat.isEmpty && pat.isPrefixOf (c :: rest) then
        repl ++ replaceAllF fuel pat repl (rest.drop (pat.length - 1))
      else
        c :: replaceAllF fuel pat repl rest

/-- Python `s.replace(pat, repl)`: replace all non-overlapping occurrences
of `pat`, scanning left to right. -/
def replaceAll (pat repl s : List Char) : List Char :=
  replaceAllF s.length pat repl s

/-- The JSON values exchanged by the application (model of the values
`json.loads` can return here; numbers are integers in the modelled
subset). -/
inductive Json where
  | null : Json
  | bool (b : Bool) : Json
  | num (q : Int) : Json
  | str (s : List Char) : Json
  | arr (xs : List Json) : Json
  | obj (kvs : List (List Char × Json)) : Json

/-- Python `dict` insertion: overwrite the value of an existing key in
place, otherwise append the new binding. -/
def objInsert (kvs : List (List Char × Json)) (k : List Char) (v : Json) :
    List (List Char × Json) :=
  if kvs.any (fun kv => kv.1 == k) then
    kvs.map (fun kv => if kv.1 == k then (k, v) else kv)
  else kvs ++ [(k, v)]

/-- Lookup in a modelled Python `dict` (keys are unique by construction). -/
def dictGet (kvs : List (List Char × Json)) (k : List Char) : Option Json :=
  (kvs.find? (fun kv => kv.1 == k)).map (fun kv => kv.2)

/-- JSON inter-token whitespace (RFC 8259 / Python `json`). -/
def isJsonWs (c : Char) : Bool :=
  c = ' ' || c = '\t' || c = '\n' || c = '\r'

/-- Skip JSON whitespace. -/
def skipWs (s : List Char) : List Char := s.dropWhile isJsonWs

/-- Parse the body of a JSON string (the opening quote already consumed),
handling the single-character escapes; `\\uXXXX` escapes and raw control
characters are rejected, as outside the modelled subset.  Returns the
decoded text and the remaining input. -/
def parseStringBody : Nat → List Char → Option (List Char × List Char)
  | 0, _ => none
  | _+1, [] => none
  | fuel+1, c :: rest =>
    if c = '"' then some ([], rest)
    else if c = '\\' then
      match rest with
      | [] => none
      | e :: rest2 =>
        let esc : Option Char :=
          if e = '"' then some '"'
          else if e = '\\' then some '\\'
          else if e = '/' then some '/'
          else if e = 'n' then some '\n'
          else if e = 't' then some '\t'
          else if e = 'r' then some '\r'
          else if e = 'b' then some (Char.ofNat 8)
          else if e = 'f' then some (Char.ofNat 12)
          else none
        match esc with
        | some ch => (parseStringBody fuel rest2).map (fun p => (ch :: p.1, p.2))
        | none => none
    else if c.toNat < 32 then none
    else (parseStringBody fuel rest).map (fun p => (c :: p.1, p.2))

/-- Numeric value of a list of decimal digits. -/
def digitsToNat (ds : List Char) : Nat :=
  ds.foldl (fun a c => a * 10 + (c.toNat - 48)) 0

/-- Parse a JSON numeral (optional minus, integer part without leading
zeros; fractional parts and exponents are outside the modelled subset and
are rejected). -/
def parseNumber (s : List Char) : Option (Json × List Char) :=
  let (neg, s1) :=
    match s with
    | '-' :: t => (true, t)
    | _ => (false, s)
  let ds := s1.takeWhile Char.isDigit
  let rest := s1.dropWhile Char.isDigit
  if ds.isEmpty then none
  else if decide (1 < ds.length) && ds.head? == some '0' then none
  else
    let v : Int := Int.ofNat (digitsToNat ds)
    match rest with
    | '.' :: _ => none
    | 'e' :: _ => none
    | 'E' :: _ => none
    | _ => some (.num (if neg then -v else v), rest)

/-- Parse the members of a JSON object, positioned at a key; `pv` parses
one nested value (it is `parseValue` at lower fuel). -/
def parsePairsF (pv : List Char → Option (Json × List Char)) :
    Nat → List Char → List (List Char × Json) → Option (Json × List Char)
  | 0, _, _ => none
  | fuel+1, s, acc =>
    match s with
    | '"' :: rest =>
      match parseStringBody (rest.length + 1) rest with
      | some (k, r1) =>
        match skipWs r1 with
        | ':' :: r2 =>
          match pv r2 with
          | some (v, r3) =>
            let acc2 := objInsert acc k v
            match skipWs r3 with
            | ',' :: r4 => parsePairsF pv fuel (skipWs r4) acc2
            | '\x7d' :: r4 => some (.obj acc2, r4)
            | _ => none
          | none => none
        | _ => none
      | none => none
    | _ => none

/-- Parse the elements of a JSON array, positioned at an element. -/
def parseElemsF (pv : List Char → Option (Json × List Char)) :
    Nat → List Char → List Json → Option (Json × List Char)
  | 0, _, _ => none
  | fuel+1, s, acc =>
    match pv s with
    | some (v, r1) =>
      match skipWs r1 with
      | ',' :: r2 => parseElemsF pv fuel r2 (acc ++ [v])
      | ']' :: r2 => some (.arr (acc ++ [v]), r2)
      | _ => none
    | none => none

/-- Parse one JSON value (leading whitespace allowed), returning the value
and the remaining input. -/
def parseValue : Nat → List Char → Option (Json × List Char)
  | 0, _ => none
  | fuel+1, s0 =>
    let s := skipWs s0
    match s with
    | '\x7b' :: rest =>
      let s1 := skipWs rest
      match s1 with
      | '\x7d' :: r => some (.obj [], r)
      | _ => parsePairsF (parseValue fuel) fuel s1 []
    | '[' :: rest =>
      let s1 := skipWs rest
      match s1 with
      | ']' :: r => some (.arr [], r)
      | _ => parseElemsF (parseValue fuel) fuel s1 []
    | '"' :: rest =>
      (parseStringBody (rest.length + 1) rest).map (fun p => (.str p.1, p.2))
    | _ =>
      if (chars "true").isPrefixOf s then some (.bool true, s.drop 4)
      else if (chars "false").isPrefixOf s then some (.bool false, s.drop 5)
      else if (chars "null").isPrefixOf s then some (.null, s.drop 4)
      else parseNumber s

/-- Model of Python `json.loads` on the exchanged subset: the input must
be exactly one JSON value surrounded by optional whitespace; `none` models
a raised `JSONDecodeError`. -/
def jsonLoads (s : List Char) : Option Json :=
  match parseValue (s.length + 2) s with
  | some (v, rest) => if (skipWs rest).isEmpty then some v else none
  | none => none

/-- The text cleaning inside `clean_and_parse`:
`response_text.replace('```json', '').replace('```', '').strip()`. -/
def cleanText (t : List Char) : List Char :=
  pyStrip (replaceAll (chars "```") [] (replaceAll (chars "```json") [] t))

/-- `clean_and_parse(response_text)` (app.py lines 35-41): strip the fence
markers, `json.loads` the remainder; any exception is caught, an error is
shown and `None` is returned (modelled by `none`). -/
def clean_and_parse (t : List Char) : Option Json :=
  jsonLoads (cleanText t)

/-- Python truthiness of a JSON-decoded value (`if analysis`). -/
def truthy : Json → Bool
  | .null => false
  | .bool b => b
  | .num q => !(q == 0)
  | .str s => !s.isEmpty
  | .arr xs => !xs.isEmpty
  | .obj kvs => !kvs.isEmpty

/-- Substring test on character lists (Python `needle in haystack` for
strings). -/
def containsSub (n : List Char) : List Char → Bool
  | [] => n.isEmpty
  | c :: rest => n.isPrefixOf (c :: rest) || containsSub n rest

/-- Python `needle in x` for a string needle: substring test on strings,
membership on lists (a non-string element never equals a string), key
membership on dicts; `none` models the `TypeError` raised on numbers,
booleans and `None`. -/
def pyInStr (n : List Char) : Json → Option Bool
  | .str s => some (containsSub n s)
  | .arr xs => some (xs.any (fun e =>
      match e with
      | .str s => s == n
      | _ => false))
  | .obj kvs => some (kvs.any (fun kv => kv.1 == n))
  | _ => none

/-- Python `x['key']` with a string key: dict lookup; `none` models the
`KeyError` on a missing key and the `TypeError` on any non-dict. -/
def pyGetItem (j : Json) (k : List Char) : Option Json :=
  match j with
  | .obj kvs => dictGet kvs k
  | _ => none

/-- Python iteration `for item in x`: list elements, string characters
(as one-character strings), dict keys; `none` models the `TypeError` on
non-iterables. -/
def pyIterate : Json → Option (List Json)
  | .arr xs => some xs
  | .str s => some (s.map (fun c => Json.str [c]))
  | .obj kvs => some (kvs.map (fun kv => Json.str kv.1))
  | _ => none

/-- Outcome of one `requests.post` call to the nutrition provider:
either the request raised (network error), or an HTTP response arrived
with a success flag (`response.ok`) and a decoded JSON body. -/
inductive ProviderCall where
  | raises : ProviderCall
  | resp (ok : Bool) (body : Json) : ProviderCall

/-- The query built by `get_nutrition_data` from
`f"{item['quantity']}{item['unit']} {item['name']}"`: the three looked-up
values, in lookup order; `none` models the `KeyError`/`TypeError` raised
when `item` is not a dict with those keys (raised inside the `try`, hence
caught).  The f-string formatting itself is irrelevant to every claim and
is not modelled further. -/
def build_query (item : Json) : Option (Json × Json × Json) :=
  match item with
  | .obj kvs =>
    match dictGet kvs (chars "quantity") with
    | none => none
    | some q =>
      match dictGet kvs (chars "unit") with
      | none => none
      | some u =>
        match dictGet kvs (chars "name") with
        | none => none
        | some n => some (q, u, n)
  | _ => none

/-- `get_nutrition_data(item)` (app.py lines 59-69) with the provider-call
outcome made explicit: returns `response.json().get('foods', [{}])[0]`
when the response is ok, `{}` on a non-ok response, and `{}` whenever any
step raises (network error, query building, non-dict body, empty `foods`
list, non-indexable `foods`) — every exception is caught and reported,
never propagated. -/
def get_nutrition_data (item : Json) (call : ProviderCall) : Json :=
  match build_query item with
  | none => .obj []
  | some _ =>
    match call with
    | .raises => .obj []
    | .resp ok body =>
      if ok then
        match body with
        | .obj kvs =>
          match (dictGet kvs (chars "foods")).getD (.arr [.obj []]) with
          | .arr (x :: _) => x
          | .str (c :: _) => .str [c]
          | _ => .obj []
        | _ => .obj []
      else .obj []

/-- `item.get(key, 0)` coerced to a number as Python's `sum` does: missing
keys give 0, booleans count as 1/0; `none` models the `TypeError` on
non-numeric values and the `AttributeError` on non-dict records. -/
def getNum (j : Json) (k : List Char) : Option Int :=
  match j with
  | .obj kvs =>
    match dictGet kvs k with
    | none => some 0
    | some (.num q) => some q
    | some (.bool b) => some (if b then 1 else 0)
    | some _ => none
  | _ => none

/-- One step of `sum(item.get(key, 0) for item in nutrition_data)`. -/
def sumStep (k : List Char) (acc : Option Int) (j : Json) : Option Int :=
  match acc, getNum j k with
  | some a, some v => some (a + v)
  | _, _ => none

/-- `sum(item.get(key, 0) for item in nutrition_data)` (app.py lines
251-253 and 269-279): left fold over the records, starting at 0. -/
def sumKey (xs : List Json) (k : List Char) : Option Int :=
  xs.foldl (sumStep k) (some 0)

/-- The static micronutrient table of the Micronutrient Analysis tab
(display name, record key, display unit). -/
def nutrients : List (List Char × List Char × List Char) :=
  [(chars "Calcium", chars "nf_calcium_dv", chars "%"),
   (chars "Iron", chars "nf_iron_dv", chars "%"),
   (chars "Potassium", chars "nf_potassium", chars "mg"),
   (chars "Vitamin C", chars "nf_vitamin_c_dv", chars "%")]

/-- A row of the `meals` table:
`(id TEXT PRIMARY KEY, timestamp TIMESTAMP, image BLOB, analysis TEXT)`.
The `image` column stores the uploaded bytes themselves and the `analysis`
column stores `json.dumps` of the parsed value, kept here as the value. -/
structure MealRow where
  id : List Char
  timestamp : List Char
  image : List Nat
  analysis : Json

/-- The values rendered for a successful analysis (app.py lines 236-291).
The three macronutrient sums and the four micronutrient sums are `none`
when the corresponding `sum(...)` raises, and `suggestions` is `none`
when `enumerate` of the `alternative_suggestions` value raises
(non-iterable).  In Python, rendering stops at the first raising stage —
the fields of the later stages carry the values they would have had; the
run's `crashed` flag records whether any stage raised. -/
structure DisplayData where
  mainFood : Json
  healthScore : Json
  components : Nat
  protein : Option Int
  carbs : Option Int
  fats : Option Int
  micros : List (Option Int)
  suggestions : Option (List Json)

/-- The observable effects of one run of the script body for one upload:
which error messages were shown, what was inserted into `meals`, which
nutrition records were fetched, what was displayed, and whether an
uncaught exception escaped (Streamlit then shows a traceback): a
`TypeError` from the membership guard, a `TypeError`/`KeyError`/
`AttributeError` reaching the items, a `TypeError` inside one of the
seven nutrient sums (non-dict record or non-numeric value), or a
`TypeError` from enumerating a non-iterable `alternative_suggestions`
value in the recommendations loop. -/
structure FlowResult where
  aiErrorShown : Bool
  parseErrorShown : Bool
  persisted : Option MealRow
  nutrition : Option (List Json)
  display : Option DisplayData
  crashed : Bool

/-- The row inserted for an analysis: `id = str(timestamp)`,
`timestamp`, the raw uploaded bytes, and the parsed analysis value. -/
def mealRowOf (ts : List Char) (img : List Nat) (analysis : Json) : MealRow :=
  ⟨ts, ts, img, analysis⟩

/-- `[f i x for i, x in enumerate(xs)]` with explicit indices, used to give
each item its own provider-call outcome. -/
def mapWithIndex (f : Nat → Json → Json) : Nat → List Json → List Json
  | _, [] => []
  | i, x :: xs => f i x :: mapWithIndex f (i + 1) xs

/-- The values computed from the inner `analysis['analysis']` dict and
the fetched nutrition records (app.py lines 236-291): the three badges,
the macronutrient and micronutrient sums, and the suggestion values
iterated by the recommendations loop at lines 282-291. -/
def mkDisplay (ikvs : List (List Char × Json)) (items : List Json)
    (nutrition : List Json) : DisplayData :=
  { mainFood := (dictGet ikvs (chars "main_food")).getD (.str (chars "Unknown"))
    healthScore := (dictGet ikvs (chars "health_rating")).getD (.num 0)
    components := items.length
    protein := sumKey nutrition (chars "nf_protein")
    carbs := sumKey nutrition (chars "nf_total_carbohydrate")
    fats := sumKey nutrition (chars "nf_total_fat")
    micros := nutrients.map (fun t => sumKey nutrition t.2.1)
    suggestions := pyIterate ((dictGet ikvs (chars "alternative_suggestions")).getD (.arr [])) }

/-- Whether any rendering stage after the badges raises an uncaught
exception: one of the seven `sum(...)` calls (app.py lines 251-253 and
275-279) raising `TypeError`/`AttributeError`, or the recommendations
loop (lines 282-291) enumerating a non-iterable
`alternative_suggestions` value. -/
def displayCrashes (d : DisplayData) : Bool :=
  !(d.protein.isSome && d.carbs.isSome && d.fats.isSome
    && d.micros.all (fun o => o.isSome) && d.suggestions.isSome)

/-- The script body after the guard `if analysis and 'analysis' in
analysis:` passed: the row is inserted and committed first; only then are
`analysis['analysis']` and its `items` touched, so a `TypeError` /
`AttributeError` there crashes after the insert, and a raising stage
further down (a nutrient sum or the recommendations loop) crashes after
the badges rendered. -/
def afterGuard (analysis : Json) (calls : Nat → ProviderCall) (ts : List Char)
    (img : List Nat) : FlowResult :=
  let row := mealRowOf ts img analysis
  match pyGetItem analysis (chars "analysis") with
  | some (.obj ikvs) =>
    match pyIterate ((dictGet ikvs (chars "items")).getD (.arr [])) with
    | some items =>
      let nutrition := mapWithIndex (fun i item => get_nutrition_data item (calls i)) 0 items
      let display := mkDisplay ikvs items nutrition
      ⟨false, false, some row, some nutrition, some display, displayCrashes display⟩
    | none => ⟨false, false, some row, none, none, true⟩
  | _ => ⟨false, false, some row, none, none, true⟩

/-- One run of the script body for one uploaded image (app.py lines
204-291).  `aiResult` is the AI collaborator outcome: `none` when
`generate_content` (or reading the image) raised, otherwise the returned
text.  `calls i` is the provider-call outcome for the i-th food item,
`ts` is `datetime.now().isoformat()` and `img` the uploaded bytes. -/
def appFlow (aiResult : Option (List Char)) (calls : Nat → ProviderCall)
    (ts : List Char) (img : List Nat) : FlowResult :=
  match aiResult with
  | none => ⟨true, false, none, none, none, false⟩
  | some text =>
    match clean_and_parse text with
    | none => ⟨false, true, none, none, none, false⟩
    | some analysis =>
      if truthy analysis then
        match pyInStr (chars "analysis") analysis with
        | none => ⟨false, false, none, none, none, true⟩
        | some true => afterGuard analysis calls ts img
        | some false => ⟨false, false, none, none, none, false⟩
      else ⟨false, false, none, none, none, false⟩

/-- `INSERT INTO meals` against a `TEXT PRIMARY KEY` column: the row is
appended unless its id is already present, in which case sqlite raises
`IntegrityError` and the table is unchanged. -/
def insertMeal (db : List MealRow) (row : MealRow) : List MealRow :=
  if db.any (fun r => r.id == row.id) then db else db ++ [row]

/-- Apply one flow outcome to the `meals` table: the only statement the
program ever issues against existing rows is the single INSERT. -/
def applyFlow (db : List MealRow) (res : FlowResult) : List MealRow :=
  match res.persisted with
  | none => db
  | some row => insertMeal db row

/-- Observer used by the tests: the string value stored under key `k` of a
parse result, when there is one. -/
def strAt (o : Option Json) (k : List Char) : Option (List Char) :=
  match o with
  | some (.obj kvs) =>
    match dictGet kvs k with
    | some (.str v) => some v
    | _ => none
  | _ => none

/-- A canonical AI answer wrapped in code-fence markers, the shape the
prompt asks for: three backticks + `json`, a newline, the payload, a
newline and three closing backticks. -/
def fenceWrap (s : List Char) : List Char :=
  chars "```json\n" ++ s ++ chars "\n```"

set_option maxRecDepth 100000

/-! ### Concrete fixtures used by the scenario theorems -/

/-- Provider outcome where every call raises a network error. -/
def calls0 : Nat → ProviderCall := fun _ => ProviderCall.raises

/-- A `datetime.now().isoformat()` timestamp string. -/
def ts0 : List Char := chars "2026-10-12T09:00:00.000001"

/-- Uploaded image bytes. -/
def img0 : List Nat := [137, 80, 78, 71]

/-- Different uploaded image bytes. -/
def img1 : List Nat := [255, 216, 255, 224]

/-- An otherwise-valid AI answer whose `health_rating` is 7, outside the
1-5 domain. -/
def t1 : List Char :=
  chars "\x7b\"analysis\": \x7b\"main_food\": \"Burger\", \"items\": [], \"health_rating\": 7, \"alternative_suggestions\": []\x7d\x7d"

/-- The inner dict `json.loads(t1)['analysis']`. -/
def ikvs1 : List (List Char × Json) :=
  [(chars "main_food", .str (chars "Burger")), (chars "items", .arr []),
   (chars "health_rating", .num 7), (chars "alternative_suggestions", .arr [])]

/-- The dict `json.loads(t1)`. -/
def kvs1 : List (List Char × Json) := [(chars "analysis", .obj ikvs1)]

/-- A valid two-item AI answer (scenario B). -/
def tB : List Char :=
  chars "\x7b\"analysis\": \x7b\"main_food\": \"Meal\", \"items\": [\x7b\"name\": \"rice\", \"quantity\": 1, \"unit\": \"cup\"\x7d, \x7b\"name\": \"egg\", \"quantity\": 2, \"unit\": \"large\"\x7d], \"health_rating\": 4\x7d\x7d"

/-- First item of `tB`. -/
def itemB1 : Json :=
  .obj [(chars "name", .str (chars "rice")), (chars "quantity", .num 1),
        (chars "unit", .str (chars "cup"))]

/-- Second item of `tB`. -/
def itemB2 : Json :=
  .obj [(chars "name", .str (chars "egg")), (chars "quantity", .num 2),
        (chars "unit", .str (chars "large"))]

/-- The inner dict `json.loads(tB)['analysis']`. -/
def ikvsB : List (List Char × Json) :=
  [(chars "main_food", .str (chars "Meal")),
   (chars "items", .arr [itemB1, itemB2]), (chars "health_rating", .num 4)]

/-- The dict `json.loads(tB)`. -/
def jB : Json := .obj [(chars "analysis", .obj ikvsB)]

/-- A successful provider response body: one food with protein 12 g,
carbohydrate 30 g, fat 5 g, potassium 55 mg. -/
def bodyB : Json :=
  .obj [(chars "foods", .arr [.obj
    [(chars "nf_protein", .num 12), (chars "nf_total_carbohydrate", .num 30),
     (chars "nf_total_fat", .num 5), (chars "nf_potassium", .num 55)]])]

/-- Provider outcomes for scenario B: the first item resolves, the call
for the second item raises. -/
def callsB : Nat → ProviderCall :=
  fun i => if i = 0 then .resp true bodyB else .raises

/-- A valid JSON object whose string value contains the fence marker. -/
def s9 : List Char := chars "\x7b\"note\": \"a ```json fence\"\x7d"

/-- An AI answer that is plain prose, not JSON (scenario C). -/
def tC : List Char := chars "I cannot analyze this image"

/-! ### Lemmas about the aggregation `sum(item.get(key, 0) ...)` -/

theorem sumStep_none (k : List Char) (j : Json) : sumStep k none j = none := by
  unfold sumStep
  cases getNum j k <;> rfl

theorem foldl_sumStep_none (k : List Char) (xs : List Json) :
    xs.foldl (sumStep k) none = none := by
  induction xs with
  | nil => rfl
  | cons x xs ih => simpa [sumStep_none] using ih

theorem foldl_sumStep_shift (k : List Char) (xs : List Json) :
    ∀ a : Int, xs.foldl (sumStep k) (some a) = (sumKey xs k).map (fun w => a + w) := by
  induction xs with
  | nil => intro a; simp [sumKey]
  | cons x xs ih =>
    intro a
    cases hv : getNum x k with
    | none =>
      simp only [sumKey, List.foldl_cons, sumStep, hv]
      simp [foldl_sumStep_none]
    | some v =>
      simp only [sumKey, List.foldl_cons, sumStep, hv]
      rw [ih, ih]
      cases sumKey xs k <;> simp <;> ring

theorem sumKey_cons (k : List Char) (x : Json) (xs : List Json) :
    sumKey (x :: xs) k =
      match getNum x k with
      | some v => (sumKey xs k).map (fun w => v + w)
      | none => none := by
  cases hv : getNum x k with
  | none =>
    simp only [hv]
    have h1 : sumStep k (some 0) x = none := by simp [sumStep, hv]
    simp only [sumKey, List.foldl_cons, h1, foldl_sumStep_none]
  | some v =>
    simp only [hv]
    have h1 : sumStep k (some 0) x = some v := by simp [sumStep, hv]
    show (x :: xs).foldl (sumStep k) (some 0) = _
    rw [List.foldl_cons, h1, foldl_sumStep_shift]

theorem sumKey_perm (k : List Char) {xs ys : List Json} (h : xs.Perm ys) :
    sumKey xs k = sumKey ys k := by
  induction h with
  | nil => rfl
  | cons x _ ih => rw [sumKey_cons, sumKey_cons, ih]
  | swap x y l =>
    rw [sumKey_cons, sumKey_cons, sumKey_cons, sumKey_cons]
    cases getNum x k <;> cases getNum y k <;> cases sumKey l k <;> simp <;> ring
  | trans _ _ ih1 ih2 => rw [ih1, ih2]

/-! ### Lemmas about the guard and the script body -/

theorem dictGet_any (kvs : List (List Char × Json)) (k : List Char) (v : Json)
    (h : dictGet kvs k = some v) : kvs.any (fun kv => kv.1 == k) = true := by
  induction kvs with
  | nil => simp [dictGet] at h
  | cons x xs ih =>
    by_cases hx : (x.1 == k) = true
    · simp [List.any_cons, hx]
    · have hx' : (x.1 == k) = false := by simpa using hx
      simp only [List.any_cons, hx', Bool.false_or]
      apply ih
      unfold dictGet at h ⊢
      rwa [show (x :: xs).find? (fun kv => kv.1 == k) = xs.find? (fun kv => kv.1 == k) from
        by simp [List.find?, hx']] at h

theorem dictGet_truthy (kvs : List (List Char × Json)) (k : List Char) (v : Json)
    (h : dictGet kvs k = some v) : truthy (.obj kvs) = true := by
  cases kvs with
  | nil => simp [dictGet] at h
  | cons kv kvs => rfl

theorem guard_passes (kvs : List (List Char × Json)) (v : Json)
    (h : dictGet kvs (chars "analysis") = some v) :
    truthy (.obj kvs) = true ∧ pyInStr (chars "analysis") (.obj kvs) = some true := by
  refine ⟨dictGet_truthy kvs _ v h, ?_⟩
  have hstep : pyInStr (chars "analysis") (.obj kvs) =
      some (kvs.any fun kv => kv.1 == chars "analysis") := rfl
  rw [hstep, dictGet_any kvs _ v h]

theorem afterGuard_persisted (analysis : Json) (calls : Nat → ProviderCall)
    (ts : List Char) (img : List Nat) :
    (afterGuard analysis calls ts img).persisted = some (mealRowOf ts img analysis) := by
  unfold afterGuard
  split
  · split <;> rfl
  · rfl

theorem appFlow_success (text : List Char) (analysis : Json)
    (calls : Nat → ProviderCall) (ts : List Char) (img : List Nat)
    (hp : clean_and_parse text = some analysis)
    (ht : truthy analysis = true)
    (hin : pyInStr (chars "analysis") analysis = some true) :
    appFlow (some text) calls ts img = afterGuard analysis calls ts img := by
  simp only [appFlow, hp, ht, hin, if_true]

theorem afterGuard_ok (kvs ikvs : List (List Char × Json)) (items : List Json)
    (calls : Nat → ProviderCall) (ts : List Char) (img : List Nat)
    (hin : dictGet kvs (chars "analysis") = some (.obj ikvs))
    (hitems : pyIterate ((dictGet ikvs (chars "items")).getD (.arr [])) = some items) :
    afterGuard (.obj kvs) calls ts img =
      ⟨false, false, some (mealRowOf ts img (.obj kvs)),
       some (mapWithIndex (fun i item => get_nutrition_data item (calls i)) 0 items),
       some (mkDisplay ikvs items
         (mapWithIndex (fun i item => get_nutrition_data item (calls i)) 0 items)),
       displayCrashes (mkDisplay ikvs items
         (mapWithIndex (fun i item => get_nutrition_data item (calls i)) 0 items))⟩ := by
  have hget : pyGetItem (.obj kvs) (chars "analysis") = some (.obj ikvs) := hin
  simp only [afterGuard, hget, hitems]

/-! ### Lemmas about `str.replace` and `str.strip` -/

theorem replaceAllF_nil (f : Nat) (pat r : List Char) : replaceAllF f pat r [] = [] := by
  cases f <;> rfl

theorem replaceAllF_fuel (pat r : List Char) :
    ∀ f g s, s.length ≤ f → s.length ≤ g →
      replaceAllF f pat r s = replaceAllF g pat r s := by
  intro f
  induction f with
  | zero =>
    intro g s hf _
    have hs : s = [] := List.length_eq_zero.mp (Nat.le_zero.mp hf)
    subst hs
    rw [replaceAllF_nil, replaceAllF_nil]
  | succ f ih =>
    intro g s hf hg
    match s with
    | [] => rw [replaceAllF_nil, replaceAllF_nil]
    | c :: t =>
      match g with
      | 0 => exact absurd hg (by simp)
      | g + 1 =>
        simp only [replaceAllF]
        by_cases hm : (!pat.isEmpty && pat.isPrefixOf (c :: t)) = true
        · rw [if_pos hm, if_pos hm]
          have hle : (t.drop (pat.length - 1)).length ≤ t.length := by
            simp [Nat.sub_le]
          have hf' : t.length ≤ f := Nat.le_of_succ_le_succ (by simpa using hf)
          have hg' : t.length ≤ g := Nat.le_of_succ_le_succ (by simpa using hg)
          rw [ih g _ (le_trans hle hf') (le_trans hle hg')]
        · have hm' : (!pat.isEmpty && pat.isPrefixOf (c :: t)) = false :=
            Bool.eq_false_iff.mpr hm
          rw [if_neg (hm' ▸ Bool.false_ne_true), if_neg (hm' ▸ Bool.false_ne_true)]
          have hf' : t.length ≤ f := Nat.le_of_succ_le_succ (by simpa using hf)
          have hg' : t.length ≤ g := Nat.le_of_succ_le_succ (by simpa using hg)
          rw [ih g t hf' hg']

theorem replaceAll_nil (pat r : List Char) : replaceAll pat r [] = [] := rfl

theorem replaceAll_cons_matched (pat r : List Char) (c : Char) (t : List Char)
    (hm : (!pat.isEmpty && pat.isPrefixOf (c :: t)) = true) :
    replaceAll pat r (c :: t) = r ++ replaceAll pat r (t.drop (pat.length - 1)) := by
  show replaceAllF (t.length + 1) pat r (c :: t) = _
  simp only [replaceAllF, hm, if_true]
  rw [replaceAllF_fuel pat r t.length (t.drop (pat.length - 1)).length _
    (by simp [Nat.sub_le]) (le_refl _)]
  rfl

theorem replaceAll_cons_nomatch (pat r : List Char) (c : Char) (t : List Char)
    (hm : (!pat.isEmpty && pat.isPrefixOf (c :: t)) = false) :
    replaceAll pat r (c :: t) = c :: replaceAll pat r t := by
  show replaceAllF (t.length + 1) pat r (c :: t) = _
  simp only [replaceAllF, hm, if_false]
  rfl

theorem isPrefixOf_append_nl (pat : List Char) (hnl : ('\n' : Char) ∉ pat) :
    ∀ x y : List Char, pat.isPrefixOf (x ++ '\n' :: y) = pat.isPrefixOf x := by
  induction pat with
  | nil => intro x y; cases x <;> rfl
  | cons p ps ih =>
    intro x y
    match x with
    | [] =>
      show (p :: ps).isPrefixOf ('\n' :: y) = false
      have hp : (p == '\n') = false := by
        apply beq_eq_false_iff_ne.mpr
        intro h
        exact hnl (by rw [← h]; exact List.mem_cons_self p ps)
      simp [List.isPrefixOf, hp]
    | c :: xs =>
      show (p :: ps).isPrefixOf (c :: (xs ++ '\n' :: y)) = (p :: ps).isPrefixOf (c :: xs)
      simp only [List.isPrefixOf]
      rw [ih (fun hm => hnl (List.mem_cons_of_mem p hm)) xs y]

theorem isPrefixOf_length_le :
    ∀ p s : List Char, p.isPrefixOf s = true → p.length ≤ s.length
  | [], s, _ => by simp
  | p :: ps, [], h => by simp [List.isPrefixOf] at h
  | p :: ps, c :: t, h => by
    simp only [List.isPrefixOf, Bool.and_eq_true] at h
    simpa using isPrefixOf_length_le ps t h.2

theorem isPrefixOf_self_append :
    ∀ p t : List Char, p.isPrefixOf (p ++ t) = true
  | [], t => by cases t <;> rfl
  | c :: p, t => by simp [List.isPrefixOf, isPrefixOf_self_append p t]

theorem isPrefixOf_nil_false (pat : List Char) (hp : pat ≠ []) :
    pat.isPrefixOf ([] : List Char) = false := by
  match pat, hp with
  | p :: ps, _ => rfl

theorem replaceAll_nl_cons (pat r b : List Char) (hp : pat ≠ [])
    (hnl : ('\n' : Char) ∉ pat) :
    replaceAll pat r ('\n' :: b) = '\n' :: replaceAll pat r b := by
  apply replaceAll_cons_nomatch
  have h1 : pat.isPrefixOf ('\n' :: b) = pat.isPrefixOf ([] : List Char) :=
    isPrefixOf_append_nl pat hnl [] b
  rw [h1, isPrefixOf_nil_false pat hp, Bool.and_false]

theorem replaceAll_append_nl (pat r : List Char) (hp : pat ≠ [])
    (hnl : ('\n' : Char) ∉ pat) :
    ∀ n (a b : List Char), a.length ≤ n →
      replaceAll pat r (a ++ '\n' :: b) =
        replaceAll pat r a ++ '\n' :: replaceAll pat r b := by
  intro n
  induction n with
  | zero =>
    intro a b ha
    have hs : a = [] := List.length_eq_zero.mp (Nat.le_zero.mp ha)
    subst hs
    rw [List.nil_append, replaceAll_nl_cons pat r b hp hnl, replaceAll_nil]
    rfl
  | succ n ih =>
    intro a b ha
    match a with
    | [] =>
      rw [List.nil_append, replaceAll_nl_cons pat r b hp hnl, replaceAll_nil]
      rfl
    | c :: a' =>
      have hcond : (!pat.isEmpty && pat.isPrefixOf ((c :: a') ++ '\n' :: b)) =
          (!pat.isEmpty && pat.isPrefixOf (c :: a')) := by
        rw [isPrefixOf_append_nl pat hnl]
      have ha' : a'.length ≤ n := Nat.le_of_succ_le_succ (by simpa using ha)
      by_cases hm : (!pat.isEmpty && pat.isPrefixOf (c :: a')) = true
      · have hpre : pat.isPrefixOf (c :: a') = true := by
          have hm2 := hm
          simp only [Bool.and_eq_true] at hm2
          exact hm2.2
        have hlen : pat.length - 1 ≤ a'.length := by
          have := isPrefixOf_length_le pat (c :: a') hpre
          simp only [List.length_cons] at this
          omega
        have e1 : (c :: (a' ++ '\n' :: b)) = (c :: a') ++ '\n' :: b := rfl
        rw [show (c :: a') ++ '\n' :: b = c :: (a' ++ '\n' :: b) from rfl,
            replaceAll_cons_matched pat r c (a' ++ '\n' :: b) (by rw [← e1] at hcond; rw [hcond]; exact hm),
            replaceAll_cons_matched pat r c a' hm,
            List.drop_append_of_le_length hlen,
            ih (a'.drop (pat.length - 1)) b (le_trans (by simp [Nat.sub_le]) ha'),
            List.append_assoc]
      · have hm' : (!pat.isEmpty && pat.isPrefixOf (c :: a')) = false :=
          Bool.eq_false_iff.mpr hm
        have e1 : (c :: (a' ++ '\n' :: b)) = (c :: a') ++ '\n' :: b := rfl
        rw [show (c :: a') ++ '\n' :: b = c :: (a' ++ '\n' :: b) from rfl,
            replaceAll_cons_nomatch pat r c (a' ++ '\n' :: b) (by rw [← e1] at hcond; rw [hcond]; exact hm'),
            replaceAll_cons_nomatch pat r c a' hm',
            ih a' b ha']
        rfl

theorem replaceAll_front (pat r t : List Char) (hp : pat ≠ []) :
    replaceAll pat r (pat ++ t) = r ++ replaceAll pat r t := by
  match pat, hp with
  | p :: ps, _ =>
    have hm : (!(p :: ps).isEmpty && (p :: ps).isPrefixOf (p :: (ps ++ t))) = true := by
      simpa using isPrefixOf_self_append (p :: ps) t
    rw [show (p :: ps) ++ t = p :: (ps ++ t) from rfl,
        replaceAll_cons_matched (p :: ps) r p (ps ++ t) hm]
    congr 1
    have hl : (p :: ps).length - 1 = ps.length := by simp
    rw [hl, List.drop_left]

theorem pyStrip_cons_space (c : Char) (s : List Char) (h : isPySpace c = true) :
    pyStrip (c :: s) = pyStrip s := by
  unfold pyStrip
  rw [List.dropWhile_cons_of_pos h]

theorem pyStrip_append_space (s : List Char) (c : Char) (h : isPySpace c = true) :
    pyStrip (s ++ [c]) = pyStrip s := by
  unfold pyStrip
  rw [List.dropWhile_append]
  cases hd : (s.dropWhile isPySpace).isEmpty with
  | true =>
    have hnil : s.dropWhile isPySpace = [] := by
      cases he : s.dropWhile isPySpace
      · rfl
      · rw [he] at hd; simp at hd
    rw [if_pos rfl, hnil]
    have h1 : [c].dropWhile isPySpace = [] := by
      rw [List.dropWhile_cons_of_pos h]; rfl
    rw [h1]
  | false =>
    rw [if_neg Bool.false_ne_true]
    rw [List.reverse_append]
    simp only [List.reverse_cons, List.reverse_nil, List.nil_append, List.singleton_append]
    rw [List.dropWhile_cons_of_pos h]

theorem cleanText_fenceWrap (s : List Char) : cleanText (fenceWrap s) = cleanText s := by
  have hp7 : chars "```json" ≠ [] := by decide
  have hn7 : ('\n' : Char) ∉ chars "```json" := by decide
  have hp3 : chars "```" ≠ [] := by decide
  have hn3 : ('\n' : Char) ∉ chars "```" := by decide
  have e0 : fenceWrap s = chars "```json" ++ ('\n' :: (s ++ '\n' :: chars "```")) := by
    rw [fenceWrap, show chars "```json\n" = chars "```json" ++ ['\n'] from by decide,
        show chars "\n```" = '\n' :: chars "```" from by decide]
    simp [List.append_assoc]
  have s1 : replaceAll (chars "```json") [] (fenceWrap s) =
      '\n' :: (replaceAll (chars "```json") [] s ++ '\n' :: chars "```") := by
    rw [e0, replaceAll_front _ _ _ hp7, List.nil_append,
        replaceAll_nl_cons _ _ _ hp7 hn7,
        replaceAll_append_nl _ _ hp7 hn7 s.length s (chars "```") (le_refl _),
        show replaceAll (chars "```json") [] (chars "```") = chars "```" from rfl]
  have s2 : replaceAll (chars "```") []
        ('\n' :: (replaceAll (chars "```json") [] s ++ '\n' :: chars "```")) =
      '\n' :: (replaceAll (chars "```") [] (replaceAll (chars "```json") [] s) ++ ['\n']) := by
    rw [replaceAll_nl_cons _ _ _ hp3 hn3,
        replaceAll_append_nl _ _ hp3 hn3 (replaceAll (chars "```json") [] s).length _ _
          (le_refl _),
        show replaceAll (chars "```") [] (chars "```") = [] from rfl]
  unfold cleanText
  rw [s1, s2, pyStrip_cons_space _ _ (by decide), pyStrip_append_space _ _ (by decide)]

/-! ### Claim theorems -/

/-- C7: for every JSON meal-description text `s`, parsing `s` directly and
parsing `s` wrapped in code-fence markers (three backticks + `json`,
newline, `s`, newline, three closing backticks) through `clean_and_parse`
yield the same result — the cleaning step removes the fence and strips the
surrounding newlines, so the decoded MealDescription is identical.  This
holds for every string `s`, in particular for every canonical
meal-description payload. -/
theorem c7_fence_wrap_parse_eq (s : List Char) :
    clean_and_parse (fenceWrap s) = clean_and_parse s := by
  unfold clean_and_parse
  rw [cleanText_fenceWrap]

/-- C8: the record store is append-only.  For any prior table contents and
any flow outcome, the run leaves the existing rows unchanged as a prefix
of the new table (no row is ever updated or deleted — the only statement
the program issues is the single INSERT) and appends at most one row. -/
theorem c8_store_append_only (db : List MealRow) (res : FlowResult) :
    db <+: applyFlow db res ∧ (applyFlow db res).length ≤ db.length + 1 := by
  cases hper : res.persisted with
  | none =>
    simp only [applyFlow, hper]
    exact ⟨⟨[], by simp⟩, by omega⟩
  | some row =>
    simp only [applyFlow, hper, insertMeal]
    by_cases hdup : db.any (fun r => r.id == row.id) = true
    · rw [if_pos hdup]
      exact ⟨⟨[], by simp⟩, by omega⟩
    · rw [if_neg hdup]
      exact ⟨⟨[row], rfl⟩, by simp⟩

/-- C9: `clean_and_parse` deletes every occurrence of the fence substrings
anywhere in the text before JSON decoding, so on a valid JSON object whose
string value contains "```json" the cleaned text has the substring deleted
inside the value, and parsing returns a different string value than
directly JSON-decoding the original text. -/
theorem c9_fence_deleted_inside_string_value :
    cleanText s9 = chars "\x7b\"note\": \"a  fence\"\x7d" ∧
    jsonLoads s9 = some (.obj [(chars "note", .str (chars "a ```json fence"))]) ∧
    clean_and_parse s9 = some (.obj [(chars "note", .str (chars "a  fence"))]) ∧
    strAt (clean_and_parse s9) (chars "note") ≠ strAt (jsonLoads s9) (chars "note") :=
  ⟨rfl, rfl, rfl, by decide⟩

/-- C2 (amended): for every AI response text that cannot be decoded as
JSON at all, the run shows the parsing error (`ParseError`), performs no
further processing, and persists nothing.  (The claim's extension to
payloads that decode to a non-object value fails, see the
counterexample: those are not parse errors in the code.) -/
theorem c2_undecodable_parse_error (text : List Char) (calls : Nat → ProviderCall)
    (ts : List Char) (img : List Nat)
    (h : jsonLoads (cleanText text) = none) :
    appFlow (some text) calls ts img = ⟨false, true, none, none, none, false⟩ := by
  simp only [appFlow, clean_and_parse, h]

/-- C2 counterexample: the payload `[1, 2]` decodes to a JSON array (a
non-object), yet the run shows no parsing error at all — it is silently
skipped with nothing persisted, contradicting the claim that every
non-object payload fails with `ParseError`. -/
theorem c2_array_no_parse_error :
    appFlow (some (chars "[1, 2]")) calls0 ts0 img0 =
      ⟨false, false, none, none, none, false⟩ := rfl

/-- C2 witness: scenario C — the prose answer "I cannot analyze this
image" is not decodable, the run reports the parse error and persists no
record. -/
theorem c2_witness :
    appFlow (some tC) calls0 ts0 img0 = ⟨false, true, none, none, none, false⟩ :=
  c2_undecodable_parse_error tC calls0 ts0 img0 rfl

/-- C10 (amended): an AI response that decodes to a falsy JSON value
(e.g. `{}`), or to a truthy container for which the membership test
`'analysis' in analysis` is `False`, is silently skipped: no error
message, no persistence, no nutrient lookups, no display, no exception.
(The claim's extension to truthy non-containers fails, see the
counterexample: there the membership test itself raises `TypeError`.) -/
theorem c10_silent_skip (text : List Char) (j : Json) (calls : Nat → ProviderCall)
    (ts : List Char) (img : List Nat)
    (hp : clean_and_parse text = some j)
    (h : truthy j = false ∨ pyInStr (chars "analysis") j = some false) :
    appFlow (some text) calls ts img = ⟨false, false, none, none, none, false⟩ := by
  rcases h with ht | hin
  · simp only [appFlow, hp]
    rw [if_neg (ht ▸ Bool.false_ne_true)]
  · by_cases ht : truthy j = true
    · simp only [appFlow, hp, ht, if_true, hin]
    · simp only [appFlow, hp]
      rw [if_neg ht]

/-- C10 counterexample: the payload `5` decodes to a truthy JSON number
that lacks an `'analysis'` key, but the run is not silent — the
membership test `'analysis' in 5` raises an uncaught `TypeError`
(`crashed = true`), contradicting the claimed silent no-op (nothing is
persisted and no lookup happens, but an exception surfaces). -/
theorem c10_number_guard_crash :
    appFlow (some (chars "5")) calls0 ts0 img0 =
      ⟨false, false, none, none, none, true⟩ := rfl

/-- C10 witness: the empty object `{}` is falsy, so the run is a silent
no-op: no error, no persistence, no lookups, no display, no exception. -/
theorem c10_witness :
    appFlow (some (chars "\x7b\x7d")) calls0 ts0 img0 =
      ⟨false, false, none, none, none, false⟩ :=
  c10_silent_skip (chars "\x7b\x7d") (.obj []) calls0 ts0 img0 rfl (Or.inl rfl)

/-- C1 (amended): no schema validation exists in the code.  Whenever the
AI response parses to an object that passes the guard and the inner
`analysis` dict has an iterable `items` value, the run succeeds with no
error, the record is persisted, and the Health Score badge renders the
raw `health_rating` value unchanged — in particular an integer outside
[1,5] is displayed as-is, neither rejected with a
`SchemaValidationError` (no such error exists) nor clamped.  The badge
renders before the nutrient sums and the recommendations loop, so this
holds whatever those later stages do; an uncaught exception escapes the
run exactly when one of those later stages raises (`displayCrashes`),
never because of the health rating's value. -/
theorem c1_health_rating_displayed_as_is (text : List Char)
    (kvs ikvs : List (List Char × Json)) (items : List Json)
    (calls : Nat → ProviderCall) (ts : List Char) (img : List Nat)
    (hp : clean_and_parse text = some (.obj kvs))
    (hin : dictGet kvs (chars "analysis") = some (.obj ikvs))
    (hitems : pyIterate ((dictGet ikvs (chars "items")).getD (.arr [])) = some items) :
    (appFlow (some text) calls ts img).parseErrorShown = false ∧
    (appFlow (some text) calls ts img).persisted = some (mealRowOf ts img (.obj kvs)) ∧
    (appFlow (some text) calls ts img).display.map (fun d => d.healthScore) =
      some ((dictGet ikvs (chars "health_rating")).getD (.num 0)) ∧
    (appFlow (some text) calls ts img).crashed =
      displayCrashes (mkDisplay ikvs items
        (mapWithIndex (fun i item => get_nutrition_data item (calls i)) 0 items)) := by
  obtain ⟨ht, hinS⟩ := guard_passes kvs _ hin
  rw [appFlow_success text _ calls ts img hp ht hinS,
      afterGuard_ok kvs ikvs items calls ts img hin hitems]
  exact ⟨rfl, rfl, rfl, rfl⟩

/-- C1 counterexample: the otherwise-valid answer `t1` carries
`health_rating: 7`, outside [1,5]; the analysis does not fail — no error
is shown, the record is persisted, and the Health Score badge shows the
raw value 7 (rendered "7/5"). -/
theorem c1_out_of_range_accepted :
    (appFlow (some t1) calls0 ts0 img0).parseErrorShown = false ∧
    (appFlow (some t1) calls0 ts0 img0).crashed = false ∧
    (appFlow (some t1) calls0 ts0 img0).persisted =
      some (mealRowOf ts0 img0 (.obj kvs1)) ∧
    (appFlow (some t1) calls0 ts0 img0).display.map (fun d => d.healthScore) =
      some (.num 7) ∧
    ¬ (1 ≤ (7 : Int) ∧ (7 : Int) ≤ 5) :=
  ⟨rfl, rfl, rfl, rfl, by omega⟩

/-- C1 witness: the amended theorem applied to `t1` (rating 7); at this
input no later stage raises, so the crashed flag is concretely false. -/
theorem c1_witness :
    (appFlow (some t1) calls0 ts0 img0).parseErrorShown = false ∧
    (appFlow (some t1) calls0 ts0 img0).persisted =
      some (mealRowOf ts0 img0 (.obj kvs1)) ∧
    (appFlow (some t1) calls0 ts0 img0).display.map (fun d => d.healthScore) =
      some (.num 7) ∧
    (appFlow (some t1) calls0 ts0 img0).crashed = false :=
  c1_health_rating_displayed_as_is t1 kvs1 ikvs1 [] calls0 ts0 img0 rfl rfl rfl

/-- C3: on every provider failure — the request raises, the HTTP response
is non-ok, or an ok response carries an empty `foods` result set —
`get_nutrition_data` returns the well-defined empty record `{}` (all-zero
under `.get(key, 0)`), and no exception propagates.  Aggregating a record
with the empty record contributes exactly 0: the sum over `[r, {}]`
equals `r`'s own value for every key.  Concretely (scenario B), with two
items where only the second call fails, the analysis completes without
exception and the aggregated macronutrients equal exactly the first
item's values. -/
theorem c3_provider_failure_recovered :
    (∀ item : Json, get_nutrition_data item .raises = .obj []) ∧
    (∀ item body : Json, get_nutrition_data item (.resp false body) = .obj []) ∧
    (∀ item : Json,
      get_nutrition_data item (.resp true (.obj [(chars "foods", .arr [])])) = .obj []) ∧
    (∀ (r : Json) (k : List Char), sumKey [r, .obj []] k = getNum r k) ∧
    ((appFlow (some tB) callsB ts0 img0).crashed = false ∧
     (appFlow (some tB) callsB ts0 img0).parseErrorShown = false ∧
     (appFlow (some tB) callsB ts0 img0).display.map (fun d => d.protein) =
       some (some 12) ∧
     (appFlow (some tB) callsB ts0 img0).display.map (fun d => d.carbs) =
       some (some 30) ∧
     (appFlow (some tB) callsB ts0 img0).display.map (fun d => d.fats) =
       some (some 5)) := by
  refine ⟨?_, ?_, ?_, ?_, rfl, rfl, rfl, rfl, rfl⟩
  · intro item
    unfold get_nutrition_data
    cases build_query item <;> rfl
  · intro item body
    unfold get_nutrition_data
    cases build_query item <;> rfl
  · intro item
    unfold get_nutrition_data
    cases build_query item <;> rfl
  · intro r k
    rw [sumKey_cons]
    cases hv : getNum r k with
    | none => rfl
    | some v =>
      show (sumKey [.obj []] k).map (fun w => v + w) = some v
      rw [show sumKey [.obj []] k = some 0 from rfl]
      simp

/-- C4: aggregation over NutrientRecords — the empty sequence sums to 0
for every key, a record in which the key is absent contributes 0 to that
key's total, and aggregating any permutation of the same record sequence
yields identical totals. -/
theorem c4_aggregate_properties :
    (∀ k : List Char, sumKey [] k = some 0) ∧
    (∀ (kvs : List (List Char × Json)) (k : List Char) (xs : List Json),
      dictGet kvs k = none → sumKey (.obj kvs :: xs) k = sumKey xs k) ∧
    (∀ (k : List Char) (xs ys : List Json), xs.Perm ys → sumKey xs k = sumKey ys k) := by
  refine ⟨fun _ => rfl, ?_, fun k _ _ h => sumKey_perm k h⟩
  intro kvs k xs h
  rw [sumKey_cons, show getNum (.obj kvs) k = some 0 from by simp only [getNum, h]]
  cases sumKey xs k <;> simp

/-- C4 witness: the three parts at concrete inputs — the empty aggregate
over `nf_protein` is 0, a record without the key contributes nothing, and
swapping two records leaves the total unchanged. -/
theorem c4_witness :
    sumKey [] (chars "nf_protein") = some 0 ∧
    sumKey [Json.obj [], .obj [(chars "x", .num 1)]] (chars "nf_protein") =
      sumKey [Json.obj [(chars "x", .num 1)]] (chars "nf_protein") ∧
    sumKey [Json.obj [(chars "nf_protein", .num 1)],
            .obj [(chars "nf_protein", .num 2)]] (chars "nf_protein") =
      sumKey [Json.obj [(chars "nf_protein", .num 2)],
              .obj [(chars "nf_protein", .num 1)]] (chars "nf_protein") :=
  ⟨c4_aggregate_properties.1 _,
   c4_aggregate_properties.2.1 [] _ _ rfl,
   c4_aggregate_properties.2.2 _ _ _ (List.Perm.swap _ _ _)⟩

/-- C5 (amended): the record persisted for a successful analysis has the
layout of the `meals` table — `id` is the ISO timestamp string itself,
`timestamp` the same string, `image` the raw uploaded bytes (not a hex
digest; thus trivially a deterministic function of the bytes), and
`analysis` the parsed meal-description JSON.  The row is written before
any nutrition lookup, so it is identical under arbitrary provider
outcomes and contains no aggregated nutrition. -/
theorem c5_record_layout (text : List Char) (analysis : Json)
    (calls calls2 : Nat → ProviderCall) (ts : List Char) (img : List Nat)
    (hp : clean_and_parse text = some analysis)
    (ht : truthy analysis = true)
    (hin : pyInStr (chars "analysis") analysis = some true) :
    (appFlow (some text) calls ts img).persisted = some (mealRowOf ts img analysis) ∧
    (appFlow (some text) calls ts img).persisted =
      (appFlow (some text) calls2 ts img).persisted := by
  constructor
  · rw [appFlow_success text analysis calls ts img hp ht hin]
    exact afterGuard_persisted analysis calls ts img
  · rw [appFlow_success text analysis calls ts img hp ht hin,
        appFlow_success text analysis calls2 ts img hp ht hin,
        afterGuard_persisted analysis calls ts img,
        afterGuard_persisted analysis calls2 ts img]

/-- C5 counterexample: for the same upload and AI answer, two provider
situations whose aggregated protein totals differ (12 g vs 0 g) persist
the identical record, and the stored `image` column is the raw bytes —
so the persisted record contains no `aggregated_nutrition` and no
`image_hash`; the totals are computed only after the INSERT. -/
theorem c5_record_without_nutrition :
    (appFlow (some tB) callsB ts0 img0).persisted =
      (appFlow (some tB) calls0 ts0 img0).persisted ∧
    (appFlow (some tB) callsB ts0 img0).persisted.map (fun r => r.image) =
      some img0 ∧
    (appFlow (some tB) callsB ts0 img0).display.map (fun d => d.protein) ≠
      (appFlow (some tB) calls0 ts0 img0).display.map (fun d => d.protein) :=
  ⟨rfl, rfl, by decide⟩

/-- C5 witness: the amended layout theorem at scenario B's answer, with
the all-failing and the partially-succeeding provider situations. -/
theorem c5_witness :
    (appFlow (some tB) callsB ts0 img0).persisted = some (mealRowOf ts0 img0 jB) ∧
    (appFlow (some tB) callsB ts0 img0).persisted =
      (appFlow (some tB) calls0 ts0 img0).persisted :=
  c5_record_layout tB jB callsB calls0 ts0 img0 rfl rfl rfl

/-- C6 (amended): the persisted id is not globally unique — it is exactly
the `datetime.now().isoformat()` string (and the row's `timestamp` and
`image` are the timestamp and the upload bytes).  Ids therefore differ
iff the timestamps differ: distinct instants give distinct ids, while two
same-instant analyses collide on the TEXT PRIMARY KEY. -/
theorem c6_id_is_timestamp (aiR : Option (List Char)) (calls : Nat → ProviderCall)
    (ts : List Char) (img : List Nat) (row : MealRow)
    (h : (appFlow aiR calls ts img).persisted = some row) :
    row.id = ts ∧ row.timestamp = ts ∧ row.image = img := by
  cases aiR with
  | none => simp [appFlow] at h
  | some text =>
    cases hcp : clean_and_parse text with
    | none => simp [appFlow, hcp] at h
    | some analysis =>
      simp only [appFlow, hcp] at h
      by_cases ht : truthy analysis = true
      · rw [if_pos ht] at h
        cases hin : pyInStr (chars "analysis") analysis with
        | none => simp only [hin] at h; simp at h
        | some b =>
          cases b with
          | false => simp only [hin] at h; simp at h
          | true =>
            simp only [hin, afterGuard_persisted] at h
            obtain rfl := Option.some.inj h
            exact ⟨rfl, rfl, rfl⟩
      · rw [if_neg ht] at h
        simp at h

/-- C6 counterexample: two same-instant analyses of different images both
persist rows whose id is the shared timestamp string; appending both to
an empty store keeps only one row — the second INSERT collides on the
primary key. -/
theorem c6_same_instant_collision :
    img0 ≠ img1 ∧
    (appFlow (some tB) calls0 ts0 img0).persisted.map (fun r => r.id) = some ts0 ∧
    (appFlow (some tB) calls0 ts0 img1).persisted.map (fun r => r.id) = some ts0 ∧
    (applyFlow (applyFlow [] (appFlow (some tB) calls0 ts0 img0))
      (appFlow (some tB) calls0 ts0 img1)).length = 1 :=
  ⟨by decide, rfl, rfl, rfl⟩

/-- C6 witness: the amended theorem at a concrete successful analysis. -/
theorem c6_witness :
    (mealRowOf ts0 img0 jB).id = ts0 ∧ (mealRowOf ts0 img0 jB).timestamp = ts0 ∧
    (mealRowOf ts0 img0 jB).image = img0 :=
  c6_id_is_timestamp (some tB) calls0 ts0 img0 (mealRowOf ts0 img0 jB) rfl
